import Mathlib

/-
Verification of the instruction-decoding and authority-extraction core of
scripts/reprocess_null_from_address.py.

The embedding models:
  * addresses as strings (base58 text of public keys, treated opaquely);
  * instruction data as a list of natural numbers (the byte payload);
  * `parse_token_transfer_authority` exactly as in the source;
  * the per-instruction scan of `extract_from_address_from_transaction`,
    where the structured ("parsed") path and the raw path follow the code.
The transaction view is an `Option TransactionMessage`: `none` models the
code's structural check `if not tx or not tx.transaction or not
tx.transaction.message` (the "Invalid transaction structure" branch, the
Malformed outcome), which the code distinguishes from the "No token transfer
found" exit (NotFound) by its observable log message.  Python truthiness on
strings (`if authority:` / `a or b or c`) is modelled by `truthyStr`, which
maps both absence and the empty string to `none`.
-/

namespace Forohtoo

/-- Addresses are base58 text; the core treats them as opaque comparable text. -/
abbrev Address := String

/-- The legacy SPL token program id, as hard-coded in the source. -/
def TOKEN_PROGRAM_ID : Address := "TokenkegQfeZyiNwAJbNbGKPFXCWuBvf9Ss623VQ5DA"

/-- The token-2022 program id, as hard-coded in the source. -/
def TOKEN_2022_PROGRAM_ID : Address := "TokenzQdBNbLqP5VEhdkAS6EPFLC1PHnBqCXEpPxuEb"

/-- A raw compiled instruction: a program index into the account table, a list
of account-table positions, and the opcode-prefixed data bytes. -/
structure RawInstruction where
  program_id_index : Nat
  accounts : List Nat
  data : List Nat
deriving Repr, DecidableEq

/-- Embedding of `parse_token_transfer_authority(instruction_data, account_keys,
instruction_accounts)` from the source.  Data shorter than 9 bytes yields
`none`; opcode 3 (Transfer) reads the account index at position 2, opcode 12
(TransferChecked) the one at position 3, each guarded by the length checks of
the source; any other opcode yields `none`. -/
def parse_token_transfer_authority (instruction_data : List Nat)
    (account_keys : List Address) (instruction_accounts : List Nat) :
    Option Address :=
  if instruction_data.length < 9 then none
  else
    let instruction_type := instruction_data.headD 0
    if instruction_type = 3 then
      if 3 ≤ instruction_accounts.length then
        let authority_index := instruction_accounts.getD 2 0
        if authority_index < account_keys.length then
          some (account_keys.getD authority_index "")
        else none
      else none
    else if instruction_type = 12 then
      if 4 ≤ instruction_accounts.length then
        let authority_index := instruction_accounts.getD 3 0
        if authority_index < account_keys.length then
          some (account_keys.getD authority_index "")
        else none
      else none
    else none

/-- The three optional fields the structured ("parsed") path reads from the
`info` section of a parsed instruction. -/
structure StructuredInfo where
  authority : Option String
  owner : Option String
  multisigAuthority : Option String
deriving Repr, DecidableEq

/-- Python truthiness on an optional string: `None` and the empty string are
falsy. -/
def truthyStr : Option String → Option String
  | none => none
  | some s => if s = "" then none else some s

/-- Embedding of `info.get('authority') or info.get('owner') or
info.get('multisigAuthority')` followed by `if authority:`: the first of the
three fields that is present and non-empty, else `none`. -/
def structuredAuthority (info : StructuredInfo) : Option Address :=
  (truthyStr info.authority).orElse fun _ =>
    (truthyStr info.owner).orElse fun _ => truthyStr info.multisigAuthority

/-- An instruction slot of a transaction: either a raw compiled instruction, or
a structured ("parsed") one.  `structured none` models a `parsed` attribute
that is not a dict (the `isinstance(parsed, dict)` check fails and the code
skips the instruction). -/
inductive Instr where
  | raw : RawInstruction → Instr
  | structured : Option StructuredInfo → Instr
deriving Repr, DecidableEq

/-- The authority contributed by one instruction of the scan loop, following
the loop body of `extract_from_address_from_transaction`: structured
instructions are read by `structuredAuthority` without any program check; raw
instructions first resolve their program id (an out-of-range index is caught
by the `except` and skips the instruction), require it to be one of the two
token program ids, and then apply `parse_token_transfer_authority`, with
Python truthiness on the result (`if from_addr:`). -/
def instrAuthority (account_keys : List Address) : Instr → Option Address
  | Instr.structured none => none
  | Instr.structured (some info) => structuredAuthority info
  | Instr.raw instr =>
      match account_keys[instr.program_id_index]? with
      | none => none
      | some program_id =>
          if program_id = TOKEN_PROGRAM_ID ∨ program_id = TOKEN_2022_PROGRAM_ID then
            truthyStr (parse_token_transfer_authority instr.data account_keys instr.accounts)
          else none

/-- The short-circuiting scan over the instruction list: the first instruction
yielding a non-`none` authority wins; `none` once the list is exhausted. -/
def scanInstructions (account_keys : List Address) : List Instr → Option Address
  | [] => none
  | instr :: rest =>
      match instrAuthority account_keys instr with
      | some addr => some addr
      | none => scanInstructions account_keys rest

/-- The transaction view handed to the scan: the account table and the ordered
instruction list of the message. -/
structure TransactionMessage where
  account_keys : List Address
  instructions : List Instr
deriving Repr, DecidableEq

/-- The outcome of extraction.  In the code, `Found` is the early `return
from_addr`, `NotFound` the "No token transfer found" exit, and `Malformed` the
"Invalid transaction structure" exit. -/
inductive ExtractionResult where
  | Found : Address → ExtractionResult
  | NotFound : ExtractionResult
  | Malformed : ExtractionResult
deriving Repr, DecidableEq

/-- Embedding of the extraction pipeline of
`extract_from_address_from_transaction`, over the in-memory transaction view
(`none` models a structurally invalid view: missing transaction, envelope or
message). -/
def extract_from_address_from_transaction (view : Option TransactionMessage) :
    ExtractionResult :=
  match view with
  | none => ExtractionResult.Malformed
  | some msg =>
      match scanInstructions msg.account_keys msg.instructions with
      | some addr => ExtractionResult.Found addr
      | none => ExtractionResult.NotFound

/-- Helper: a block of instructions that all contribute `none` is skipped by
the scan. -/
theorem scanInstructions_append_none (account_keys : List Address)
    (pre rest : List Instr) (h : ∀ j ∈ pre, instrAuthority account_keys j = none) :
    scanInstructions account_keys (pre ++ rest) = scanInstructions account_keys rest := by
  induction pre with
  | nil => rfl
  | cons i tl ih =>
      have hi : instrAuthority account_keys i = none := h i (by simp)
      have htl : ∀ j ∈ tl, instrAuthority account_keys j = none := by
        intro j hj
        exact h j (by simp [hj])
      simp [scanInstructions, hi, ih htl]

/-- C1: for a raw token instruction with data of length at least 9, opcode 3
with at least 3 account indices whose index 2 is in range returns the account
table entry at that position, and opcode 12 with at least 4 account indices
whose index 3 is in range returns the entry at that position; in particular
with accountIndices = [0,1,2] and table [A,B,C] the result is C, and with
accountIndices = [0,1,2,3] and table [A,B,C,D] the result is D. -/
theorem parse_transfer_authority_spec :
    (∀ (data : List Nat) (keys : List Address) (accIdx : List Nat),
        9 ≤ data.length → data.headD 0 = 3 → 3 ≤ accIdx.length →
        accIdx.getD 2 0 < keys.length →
        parse_token_transfer_authority data keys accIdx
          = some (keys.getD (accIdx.getD 2 0) "")) ∧
    (∀ (data : List Nat) (keys : List Address) (accIdx : List Nat),
        9 ≤ data.length → data.headD 0 = 12 → 4 ≤ accIdx.length →
        accIdx.getD 3 0 < keys.length →
        parse_token_transfer_authority data keys accIdx
          = some (keys.getD (accIdx.getD 3 0) "")) ∧
    parse_token_transfer_authority [3, 0, 0, 0, 0, 0, 0, 0, 0] ["A", "B", "C"] [0, 1, 2]
      = some "C" ∧
    parse_token_transfer_authority [12, 0, 0, 0, 0, 0, 0, 0, 0] ["A", "B", "C", "D"] [0, 1, 2, 3]
      = some "D" := by
  refine ⟨?_, ?_, by decide, by decide⟩
  · intro data keys accIdx hlen hop hacc hidx
    have h9 : ¬ data.length < 9 := by omega
    rw [List.headD_eq_head?] at hop
    rw [List.getD_eq_getElem?_getD] at hidx
    simp [parse_token_transfer_authority, h9, hop, hacc, hidx, List.getD_eq_getElem?_getD]
  · intro data keys accIdx hlen hop hacc hidx
    have h9 : ¬ data.length < 9 := by omega
    rw [List.headD_eq_head?] at hop
    rw [List.getD_eq_getElem?_getD] at hidx
    simp [parse_token_transfer_authority, h9, hop, hacc, hidx, List.getD_eq_getElem?_getD]

/-- Witness for C1 at a concrete transfer instruction. -/
theorem parse_transfer_authority_spec_witness :
    parse_token_transfer_authority [3, 0, 0, 0, 0, 0, 0, 0, 0] ["A", "B", "C"] [0, 1, 2]
      = some ((["A", "B", "C"] : List Address).getD (([0, 1, 2] : List Nat).getD 2 0) "") :=
  parse_transfer_authority_spec.1 [3, 0, 0, 0, 0, 0, 0, 0, 0] ["A", "B", "C"] [0, 1, 2]
    (by decide) (by decide) (by decide) (by decide)

/-- C2: the scan visits instructions in order and the first instruction that
yields a non-none authority wins: if every instruction before `i` contributes
nothing and `i` contributes `a`, extraction returns `Found a`, and the result
is unchanged under any replacement of the instructions following `i`. -/
theorem extract_first_match_wins :
    ∀ (keys : List Address) (pre : List Instr) (i : Instr)
      (rest rest2 : List Instr) (a : Address),
      (∀ j ∈ pre, instrAuthority keys j = none) →
      instrAuthority keys i = some a →
      extract_from_address_from_transaction (some ⟨keys, pre ++ i :: rest⟩)
          = ExtractionResult.Found a ∧
      extract_from_address_from_transaction (some ⟨keys, pre ++ i :: rest⟩)
          = extract_from_address_from_transaction (some ⟨keys, pre ++ i :: rest2⟩) := by
  intro keys pre i rest rest2 a hpre hi
  have h1 : scanInstructions keys (pre ++ i :: rest) = some a := by
    rw [scanInstructions_append_none keys pre _ hpre]
    simp [scanInstructions, hi]
  have h2 : scanInstructions keys (pre ++ i :: rest2) = some a := by
    rw [scanInstructions_append_none keys pre _ hpre]
    simp [scanInstructions, hi]
  constructor
  · simp [extract_from_address_from_transaction, h1]
  · simp [extract_from_address_from_transaction, h1, h2]

/-- Witness for C2: a non-token raw instruction first, then a valid Transfer;
the third instruction is junk and does not affect the result. -/
theorem extract_first_match_wins_witness :
    extract_from_address_from_transaction
        (some ⟨[TOKEN_PROGRAM_ID, "A", "B", "C"],
          [Instr.raw ⟨1, [], []⟩,
           Instr.raw ⟨0, [1, 2, 3], [3, 0, 0, 0, 0, 0, 0, 0, 0]⟩,
           Instr.raw ⟨99, [7], [0]⟩]⟩)
      = ExtractionResult.Found "C" :=
  (extract_first_match_wins [TOKEN_PROGRAM_ID, "A", "B", "C"]
    [Instr.raw ⟨1, [], []⟩] (Instr.raw ⟨0, [1, 2, 3], [3, 0, 0, 0, 0, 0, 0, 0, 0]⟩)
    [Instr.raw ⟨99, [7], [0]⟩] [Instr.raw ⟨99, [7], [0]⟩] "C"
    (by decide) (by decide)).1

/-- C3: extraction returns `Malformed` exactly when the transaction view
itself is structurally invalid, `Malformed` is distinct from `NotFound`, and
hence no per-instruction decode failure ever produces `Malformed`. -/
theorem extract_malformed_iff :
    (∀ view : Option TransactionMessage,
        extract_from_address_from_transaction view = ExtractionResult.Malformed ↔
          view = none) ∧
    ExtractionResult.Malformed ≠ ExtractionResult.NotFound := by
  refine ⟨?_, by decide⟩
  intro view
  cases view with
  | none => simp [extract_from_address_from_transaction]
  | some msg =>
      simp only [extract_from_address_from_transaction]
      cases scanInstructions msg.account_keys msg.instructions <;> simp

/-- Witness for C3: the invalid view yields `Malformed`, and a valid view with
no instructions does not. -/
theorem extract_malformed_iff_witness :
    extract_from_address_from_transaction none = ExtractionResult.Malformed :=
  (extract_malformed_iff.1 none).mpr rfl

/-- C4: the structured reader inspects `authority`, then `owner`, then
`multisigAuthority`, returning the first present non-empty field, and returns
none when none of the three is present non-empty. -/
theorem structured_reader_priority :
    (∀ (info : StructuredInfo) (a : String),
        info.authority = some a → a ≠ "" → structuredAuthority info = some a) ∧
    (∀ (info : StructuredInfo) (a : String),
        truthyStr info.authority = none → info.owner = some a → a ≠ "" →
        structuredAuthority info = some a) ∧
    (∀ (info : StructuredInfo) (a : String),
        truthyStr info.authority = none → truthyStr info.owner = none →
        info.multisigAuthority = some a → a ≠ "" →
        structuredAuthority info = some a) ∧
    (∀ info : StructuredInfo,
        truthyStr info.authority = none → truthyStr info.owner = none →
        truthyStr info.multisigAuthority = none → structuredAuthority info = none) := by
  refine ⟨?_, ?_, ?_, ?_⟩
  · intro info a ha hne
    have h : truthyStr info.authority = some a := by simp [truthyStr, ha, hne]
    simp [structuredAuthority, Option.orElse, h]
  · intro info a h1 ha hne
    have h : truthyStr info.owner = some a := by simp [truthyStr, ha, hne]
    simp [structuredAuthority, Option.orElse, h1, h]
  · intro info a h1 h2 ha hne
    have h : truthyStr info.multisigAuthority = some a := by simp [truthyStr, ha, hne]
    simp [structuredAuthority, Option.orElse, h1, h2, h]
  · intro info h1 h2 h3
    simp [structuredAuthority, h1, h2, h3, Option.orElse]

/-- Witness for C4: an instruction carrying only `owner = "X"` yields X. -/
theorem structured_reader_priority_witness :
    structuredAuthority ⟨none, some "X", none⟩ = some "X" :=
  structured_reader_priority.2.1 ⟨none, some "X", none⟩ "X" (by decide) rfl (by decide)

/-- C5: an out-of-range program index, or an out-of-range authority index for
either opcode, makes the instruction contribute nothing, and an instruction
contributing nothing never aborts the scan: extraction continues on the
remaining instructions. -/
theorem out_of_range_skipped :
    (∀ (keys : List Address) (r : RawInstruction),
        keys.length ≤ r.program_id_index →
        instrAuthority keys (Instr.raw r) = none) ∧
    (∀ (data : List Nat) (keys : List Address) (accIdx : List Nat),
        data.headD 0 = 3 → keys.length ≤ accIdx.getD 2 0 →
        parse_token_transfer_authority data keys accIdx = none) ∧
    (∀ (data : List Nat) (keys : List Address) (accIdx : List Nat),
        data.headD 0 = 12 → keys.length ≤ accIdx.getD 3 0 →
        parse_token_transfer_authority data keys accIdx = none) ∧
    (∀ (keys : List Address) (i : Instr) (rest : List Instr),
        instrAuthority keys i = none →
        extract_from_address_from_transaction (some ⟨keys, i :: rest⟩)
          = extract_from_address_from_transaction (some ⟨keys, rest⟩)) := by
  refine ⟨?_, ?_, ?_, ?_⟩
  · intro keys r hge
    simp [instrAuthority, List.getElem?_eq_none hge]
  · intro data keys accIdx hop hge
    rw [List.headD_eq_head?] at hop
    rw [List.getD_eq_getElem?_getD] at hge
    have hn : ¬ (accIdx[2]?).getD 0 < keys.length := by omega
    simp [parse_token_transfer_authority, hop, hn]
  · intro data keys accIdx hop hge
    rw [List.headD_eq_head?] at hop
    rw [List.getD_eq_getElem?_getD] at hge
    have hn : ¬ (accIdx[3]?).getD 0 < keys.length := by omega
    simp [parse_token_transfer_authority, hop, hn]
  · intro keys i rest hi
    simp [extract_from_address_from_transaction, scanInstructions, hi]

/-- Witness for C5: a raw instruction whose program index points past an empty
account table contributes nothing. -/
theorem out_of_range_skipped_witness :
    instrAuthority [] (Instr.raw ⟨0, [0, 1, 2], [3, 0, 0, 0, 0, 0, 0, 0, 0]⟩) = none :=
  out_of_range_skipped.1 [] ⟨0, [0, 1, 2], [3, 0, 0, 0, 0, 0, 0, 0, 0]⟩ (by decide)

/-- C6: data shorter than 9 bytes (in particular empty data), or an account
index list shorter than the matched opcode's minimum (3 for opcode 3, 4 for
opcode 12), makes the decoder return none. -/
theorem malformed_instruction_none :
    (∀ (data : List Nat) (keys : List Address) (accIdx : List Nat),
        data.length < 9 → parse_token_transfer_authority data keys accIdx = none) ∧
    (∀ (data : List Nat) (keys : List Address) (accIdx : List Nat),
        data.headD 0 = 3 → accIdx.length < 3 →
        parse_token_transfer_authority data keys accIdx = none) ∧
    (∀ (data : List Nat) (keys : List Address) (accIdx : List Nat),
        data.headD 0 = 12 → accIdx.length < 4 →
        parse_token_transfer_authority data keys accIdx = none) := by
  refine ⟨?_, ?_, ?_⟩
  · intro data keys accIdx hlen
    simp [parse_token_transfer_authority, hlen]
  · intro data keys accIdx hop hacc
    rw [List.headD_eq_head?] at hop
    have hn : ¬ 3 ≤ accIdx.length := by omega
    simp [parse_token_transfer_authority, hop, hn]
  · intro data keys accIdx hop hacc
    rw [List.headD_eq_head?] at hop
    have hn : ¬ 4 ≤ accIdx.length := by omega
    simp [parse_token_transfer_authority, hop, hn]

/-- Witness for C6: opcode 3 with only two account indices decodes to none. -/
theorem malformed_instruction_none_witness :
    parse_token_transfer_authority [3, 0, 0, 0, 0, 0, 0, 0, 0] ["A", "B", "C"] [0, 1] = none :=
  malformed_instruction_none.2.1 [3, 0, 0, 0, 0, 0, 0, 0, 0] ["A", "B", "C"] [0, 1]
    (by decide) (by decide)

/-- C7: any opcode other than 3 and 12 decodes to none, whatever the account
indices and remaining data bytes are. -/
theorem unknown_opcode_none :
    ∀ (data : List Nat) (keys : List Address) (accIdx : List Nat),
      data.headD 0 ≠ 3 → data.headD 0 ≠ 12 →
      parse_token_transfer_authority data keys accIdx = none := by
  intro data keys accIdx h3 h12
  rw [List.headD_eq_head?] at h3 h12
  simp [parse_token_transfer_authority, h3, h12]

/-- Witness for C7: opcode 7 with plausible accounts decodes to none. -/
theorem unknown_opcode_none_witness :
    parse_token_transfer_authority [7, 0, 0, 0, 0, 0, 0, 0, 0] ["A", "B", "C"] [0, 1, 2]
      = none :=
  unknown_opcode_none [7, 0, 0, 0, 0, 0, 0, 0, 0] ["A", "B", "C"] [0, 1, 2]
    (by decide) (by decide)

/-- C8: a transaction whose instruction list is empty yields `NotFound`. -/
theorem empty_instructions_not_found :
    ∀ keys : List Address,
      extract_from_address_from_transaction (some ⟨keys, []⟩)
        = ExtractionResult.NotFound := by
  intro keys
  rfl

/-- C9: extraction is total: on every view it returns exactly one of
`Malformed`, `NotFound` or `Found a`; no error escapes the scan. -/
theorem extract_total :
    ∀ view : Option TransactionMessage,
      extract_from_address_from_transaction view = ExtractionResult.Malformed ∨
      extract_from_address_from_transaction view = ExtractionResult.NotFound ∨
      ∃ a, extract_from_address_from_transaction view = ExtractionResult.Found a := by
  intro view
  cases view with
  | none => exact Or.inl rfl
  | some msg =>
      simp only [extract_from_address_from_transaction]
      cases scanInstructions msg.account_keys msg.instructions with
      | none => exact Or.inr (Or.inl rfl)
      | some a => exact Or.inr (Or.inr ⟨a, rfl⟩)

/-- C10: structured instructions bypass the token-program gate: their
authority never depends on the account table, a structured instruction with a
non-empty authority field makes extraction return it even when no token
program appears anywhere in the table, and the recognized-program check
applies only on the raw path, where a non-token program id forces none. -/
theorem structured_bypasses_program_gate :
    (∀ (keys keys2 : List Address) (s : Option StructuredInfo),
        instrAuthority keys (Instr.structured s)
          = instrAuthority keys2 (Instr.structured s)) ∧
    (∀ (keys : List Address) (info : StructuredInfo) (a : Address) (rest : List Instr),
        structuredAuthority info = some a →
        extract_from_address_from_transaction
            (some ⟨keys, Instr.structured (some info) :: rest⟩)
          = ExtractionResult.Found a) ∧
    (∀ (keys : List Address) (r : RawInstruction) (pid : Address),
        keys[r.program_id_index]? = some pid →
        pid ≠ TOKEN_PROGRAM_ID → pid ≠ TOKEN_2022_PROGRAM_ID →
        instrAuthority keys (Instr.raw r) = none) := by
  refine ⟨?_, ?_, ?_⟩
  · intro keys keys2 s
    cases s <;> rfl
  · intro keys info a rest hinfo
    simp [extract_from_address_from_transaction, scanInstructions, instrAuthority, hinfo]
  · intro keys r pid hpid h1 h2
    simp [instrAuthority, hpid, h1, h2]

/-- Witness for C10: a structured instruction with authority "X" is found in a
transaction whose account table is empty, so no token program is present. -/
theorem structured_bypasses_program_gate_witness :
    extract_from_address_from_transaction
        (some ⟨[], [Instr.structured (some ⟨some "X", none, none⟩)]⟩)
      = ExtractionResult.Found "X" :=
  structured_bypasses_program_gate.2.1 [] ⟨some "X", none, none⟩ "X" [] (by decide)

end Forohtoo
